import Mathlib

/-!
A shallow embedding of the `MochaRemoteClient` class of the mocha-remote
client package (`src/unnamed/part_001`).

The client is single-threaded and event-driven.  Its instance fields
(`config`, `ws`, `instrumentedMocha`, `retryTimeout`) become a `ClientState`
record; each method becomes a pure function from a `ClientState` to a new
`ClientState` together with a list of `Effect`s — the externally observable
actions the method performs (opening or closing the WebSocket, scheduling a
retry timer, invoking configured callbacks, invoking the captured framework
run entry point, transmitting data) — and an optional thrown error message.
In JavaScript, mutations performed before a `throw` persist, so a throwing
method still returns the (possibly mutated) state alongside the error.

Opaque JavaScript values carried as event arguments are modelled by
`JSValue`; an `Error` instance is modelled by the list of its own
properties, each tagged with its enumerability, since
`Object.getOwnPropertyNames` (used by `prepareArgs`) sees non-enumerable
properties while plain enumeration does not.  Property values are modelled
as opaque strings.

The framework (`Mocha`) instance is modelled by `MochaInst`: its `run`
field holds a `RunEntry`, either the genuine framework entry point
(`RunEntry.original i`, identified by a numeric id) or the throwing guard
installed by `instrument` (`RunEntry.guard`).  The configured `createMocha`
factory is modelled as producing a fresh instance identified by the
client's `nextMochaId` counter.  Configured callbacks are modelled by
presence flags; invoking one is an `Effect`.
-/

namespace MochaRemote

inductive ReadyState where
  | CONNECTING
  | OPEN
  | CLOSING
  | CLOSED
deriving DecidableEq, Repr

/-- The physical WebSocket handle: its ready state and which of the
client's three persistent listeners (close / error / message) are
attached. -/
structure WebSocketConn where
  readyState : ReadyState
  hasCloseListener : Bool
  hasErrorListener : Bool
  hasMessageListener : Bool
deriving DecidableEq, Repr

/-- A `setTimeout` handle: `clearTimeout` deactivates it but the client
field keeps holding the (stale) handle, as in the source. -/
structure Timer where
  id : Nat
  delay : Nat
  active : Bool
deriving DecidableEq, Repr

/-- A framework run entry point: either the genuine `Mocha.run`
(identified by a numeric id) or the guard installed by `instrument`. -/
inductive RunEntry where
  | original (id : Nat)
  | guard
deriving DecidableEq, Repr

/-- A `Mocha` instance as the client sees it: the (patchable) `run`
field, the `originalRun` field set by `instrument`, whether the
`reporter` method has been replaced by the warning no-op, and the
`_reporter` field installed by `run` (modelled as the list of runner
event names the installed reporter listens to). -/
structure MochaInst where
  id : Nat
  runEntry : RunEntry
  originalRun : Option RunEntry
  reporterPatched : Bool
  installedReporter : Option (List String)
deriving DecidableEq, Repr

/-- A fresh, un-instrumented framework instance as produced by the
configured `createMocha` factory. -/
def freshMocha (i : Nat) : MochaInst :=
  { id := i
    runEntry := RunEntry.original i
    originalRun := none
    reporterPatched := false
    installedReporter := none }

/-- `IMochaRemoteClientConfig`.  The callback fields (`onConnected`,
`onDisconnected`, `onInstrumented`, `onRunning`) are optional functions in
the source; here a `Bool` records whether each is configured.  The
`createMocha` factory and `mochaOptions` are modelled by the fresh-instance
generator `freshMocha` (see `ClientState.nextMochaId`). -/
structure IMochaRemoteClientConfig where
  autoConnect : Bool
  autoRetry : Bool
  retryDelay : Nat
  url : String
  id : Option String
  onConnected : Bool
  onDisconnected : Bool
  onInstrumented : Bool
  onRunning : Bool
deriving DecidableEq, Repr

/-- A partial configuration passed to the constructor; `none` fields fall
back to `DEFAULT_CONFIG` via object spread. -/
structure PartialConfig where
  autoConnect : Option Bool := none
  autoRetry : Option Bool := none
  retryDelay : Option Nat := none
  url : Option String := none
  id : Option (Option String) := none
  onConnected : Option Bool := none
  onDisconnected : Option Bool := none
  onInstrumented : Option Bool := none
  onRunning : Option Bool := none
deriving DecidableEq, Repr

/-- `{ ...DEFAULT_CONFIG, ...config }` of the constructor. -/
def mergeConfig (base : IMochaRemoteClientConfig) (p : PartialConfig) :
    IMochaRemoteClientConfig :=
  { autoConnect := p.autoConnect.getD base.autoConnect
    autoRetry := p.autoRetry.getD base.autoRetry
    retryDelay := p.retryDelay.getD base.retryDelay
    url := p.url.getD base.url
    id := p.id.getD base.id
    onConnected := p.onConnected.getD base.onConnected
    onDisconnected := p.onDisconnected.getD base.onDisconnected
    onInstrumented := p.onInstrumented.getD base.onInstrumented
    onRunning := p.onRunning.getD base.onRunning }

/-- The client's instance fields, plus two counters supplying fresh
`setTimeout` handles and fresh factory-produced framework instances. -/
structure ClientState where
  config : IMochaRemoteClientConfig
  ws : Option WebSocketConn
  instrumentedMocha : Option MochaInst
  retryTimeout : Option Timer
  nextTimerId : Nat
  nextMochaId : Nat
deriving DecidableEq, Repr

/-- An event argument value.  `prim` covers primitives and any non-Error,
non-plain-object value; `object` is a plain mapping; `errorVal` is an
`Error` instance given by its own properties, each `(name, value,
enumerable?)`.  Property values are opaque strings. -/
inductive JSValue where
  | prim (tag : String)
  | object (props : List (String × String))
  | errorVal (props : List (String × String × Bool))
deriving DecidableEq, Repr

/-- The externally observable actions a client method performs, in
program order. -/
inductive Effect where
  | clearTimeoutEff (timerId : Nat)
  | openWebSocket (url : String) (subprotocol : String)
  | removeListeners
  | closeConnection
  | scheduleRetry (timerId : Nat) (delay : Nat)
  | notifyConnected
  | notifyDisconnected (code : Nat) (reason : String)
  | notifyInstrumented (mochaId : Nat)
  | notifyRunning (runner : Nat)
  | invokeRun (entry : RunEntry)
  | sendData (eventName : String) (args : List JSValue)
deriving DecidableEq, Repr

/-- Result of a method that returns no value: the (possibly mutated)
state, the effects performed, and the thrown error message, if any. -/
structure Outcome where
  state : ClientState
  effects : List Effect
  thrown : Option String
deriving DecidableEq, Repr

/-- Result of `instrument` / `getMocha`: neither throws, and both return
a framework instance. -/
structure InstrumentResult where
  state : ClientState
  mocha : MochaInst
  effects : List Effect
deriving DecidableEq, Repr

/-- Result of `run`: the updated framework instance, the runner handle
(identified with the id of the invoked genuine entry point), effects, and
the thrown error, if any. -/
structure RunResult where
  state : ClientState
  mocha : MochaInst
  runner : Option Nat
  effects : List Effect
  thrown : Option String
deriving DecidableEq, Repr

/-- Result of the constructor: the constructed client (none if the
constructor threw), effects, and the thrown error, if any. -/
structure CtorResult where
  client : Option ClientState
  effects : List Effect
  thrown : Option String
deriving DecidableEq, Repr

/-- A decoded inbound wire message (`JSON.parse` of the event data); each
field is present or absent. -/
structure ParsedMessage where
  eventName : Option String
  type : Option String
deriving DecidableEq, Repr

/-- The message of the error thrown by the guard that `instrument`
installs over the framework's `run` entry point. -/
def instrumentedRunMessage : String :=
  "This Mocha instance is instrumented by mocha-remote-client, use the server to run tests"

/-- The fixed runner lifecycle event names the reporter listens to. -/
def MOCHA_EVENT_NAMES : List String :=
  ["start", "end", "suite", "suite end", "test", "test end",
   "hook", "hook end", "pass", "fail", "pending"]

namespace MochaRemoteClient

/-- `MochaRemoteClient.DEFAULT_CONFIG`.  The callback fields are absent by
default. -/
def DEFAULT_CONFIG : IMochaRemoteClientConfig :=
  { autoConnect := true
    autoRetry := true
    retryDelay := 500
    url := "ws://localhost:8090"
    id := some "default"
    onConnected := false
    onDisconnected := false
    onInstrumented := false
    onRunning := false }

/-- `connect()`: throws `"Already connected"` if a WebSocket exists
(before any mutation); otherwise cancels a pending retry timer, opens a
new WebSocket on the configured URL with the `mocha-remote-<id>`
sub-protocol, and attaches the close/error/message listeners. -/
def connect (s : ClientState) : Outcome :=
  if s.ws.isSome then
    { state := s, effects := [], thrown := some "Already connected" }
  else
    let clearEffs := match s.retryTimeout with
      | some t => [Effect.clearTimeoutEff t.id]
      | none => []
    let timer := s.retryTimeout.map fun t => { t with active := false }
    let subproto := "mocha-remote-" ++ (match s.config.id with
      | some i => i
      | none => "undefined")
    let conn : WebSocketConn :=
      { readyState := ReadyState.CONNECTING
        hasCloseListener := true
        hasErrorListener := true
        hasMessageListener := true }
    { state := { s with ws := some conn, retryTimeout := timer }
      effects := clearEffs ++ [Effect.openWebSocket s.config.url subproto]
      thrown := none }

/-- `disconnect()`: cancels a pending retry timer; if a WebSocket exists,
removes the close/error/message listeners, closes it and forgets it.
Never throws. -/
def disconnect (s : ClientState) : Outcome :=
  let clearEffs := match s.retryTimeout with
    | some t => [Effect.clearTimeoutEff t.id]
    | none => []
  let timer := s.retryTimeout.map fun t => { t with active := false }
  match s.ws with
  | some _ =>
    { state := { s with ws := none, retryTimeout := timer }
      effects := clearEffs ++ [Effect.removeListeners, Effect.closeConnection]
      thrown := none }
  | none =>
    { state := { s with retryTimeout := timer }
      effects := clearEffs
      thrown := none }

/-- `instrument(mocha)`: stores the instance as the current instrumented
instance, captures the instance's current `run` field as `originalRun`,
replaces `run` with the throwing guard and `reporter` with the warning
no-op, and fires `onInstrumented` when configured. -/
def instrument (s : ClientState) (mocha : MochaInst) : InstrumentResult :=
  let m : MochaInst :=
    { mocha with
        originalRun := some mocha.runEntry
        runEntry := RunEntry.guard
        reporterPatched := true }
  { state := { s with instrumentedMocha := some m }
    mocha := m
    effects := if s.config.onInstrumented then [Effect.notifyInstrumented m.id] else [] }

/-- `run(mocha)`: installs the reporter produced by `createReporter` as
the instance's `_reporter`, then invokes `mocha.originalRun()`.  If
`originalRun` holds the genuine entry point the call yields the runner
handle and `onRunning` fires when configured; if it holds the guard the
call throws the instrumented-instance error; if it is unset the call
throws a type error. -/
def run (s : ClientState) (mocha : MochaInst) : RunResult :=
  let m := { mocha with installedReporter := some MOCHA_EVENT_NAMES }
  match mocha.originalRun with
  | none =>
    { state := s, mocha := m, runner := none, effects := []
      thrown := some "TypeError: mocha.originalRun is not a function" }
  | some RunEntry.guard =>
    { state := s, mocha := m, runner := none
      effects := [Effect.invokeRun RunEntry.guard]
      thrown := some instrumentedRunMessage }
  | some (RunEntry.original i) =>
    { state := s, mocha := m, runner := some i
      effects := [Effect.invokeRun (RunEntry.original i)]
                  ++ (if s.config.onRunning then [Effect.notifyRunning i] else [])
      thrown := none }

/-- `getMocha()`: returns the stored instrumented instance when one
exists; otherwise creates a fresh instance via the configured factory and
instruments it. -/
def getMocha (s : ClientState) : InstrumentResult :=
  match s.instrumentedMocha with
  | some m => { state := s, mocha := m, effects := [] }
  | none =>
    let mocha := freshMocha s.nextMochaId
    instrument { s with nextMochaId := s.nextMochaId + 1 } mocha

/-- `prepareArgs` applied to one argument: an `Error` is re-encoded as a
plain mapping of all its own properties (`Object.getOwnPropertyNames`
sees enumerable and non-enumerable alike); anything else passes through
unchanged. -/
def prepareArg : JSValue → JSValue
  | JSValue.errorVal props => JSValue.object (props.map fun p => (p.1, p.2.1))
  | v => v

/-- `prepareArgs(args)`: maps `prepareArg` over the argument list. -/
def prepareArgs (args : List JSValue) : List JSValue :=
  args.map prepareArg

/-- `send(eventName, ...args)`: when the WebSocket exists and is open,
prepares the arguments, serializes the `{ eventName, args }` envelope and
transmits it; otherwise throws without mutating anything. -/
def send (s : ClientState) (eventName : String) (args : List JSValue) : Outcome :=
  match s.ws with
  | some conn =>
    if conn.readyState = ReadyState.OPEN then
      { state := s
        effects := [Effect.sendData eventName (prepareArgs args)]
        thrown := none }
    else
      { state := s, effects := []
        thrown := some ("Cannot send " ++ eventName ++ " WebSocket is closed") }
  | none =>
    { state := s, effects := []
      thrown := some ("Cannot send " ++ eventName ++ " WebSocket is closed") }

/-- The `onClose` listener: forgets the WebSocket; when the close code is
not 1000 and `autoRetry` is set, schedules exactly one reconnect after
`retryDelay` milliseconds and stores the timer handle; finally fires
`onDisconnected` with the code and reason when configured. -/
def onClose (s : ClientState) (code : Nat) (reason : String) : Outcome :=
  let s1 := { s with ws := none }
  let retry :=
    if code ≠ 1000 ∧ s.config.autoRetry = true then
      some (Timer.mk s.nextTimerId s.config.retryDelay true)
    else none
  let s2 := match retry with
    | some t => { s1 with retryTimeout := some t, nextTimerId := s.nextTimerId + 1 }
    | none => s1
  let retryEffs := match retry with
    | some t => [Effect.scheduleRetry t.id t.delay]
    | none => []
  let notifyEffs :=
    if s.config.onDisconnected then [Effect.notifyDisconnected code reason] else []
  { state := s2, effects := retryEffs ++ notifyEffs, thrown := none }

/-- The `onMessage` listener: parses the data; when the `eventName` field
is `"run"`, obtains an instrumented instance via `getMocha`, clears the
stored instrumented-instance reference, and dispatches `run` on it; any
other message is ignored. -/
def onMessage (s : ClientState) (data : ParsedMessage) : Outcome :=
  if data.eventName = some "run" then
    let g := getMocha s
    let s1 := { g.state with instrumentedMocha := none }
    let r := run s1 g.mocha
    { state := r.state, effects := g.effects ++ r.effects, thrown := r.thrown }
  else
    { state := s, effects := [], thrown := none }

/-- The constructor: merges the partial configuration over
`DEFAULT_CONFIG`, throws when no global WebSocket implementation exists,
and otherwise connects immediately when `autoConnect` is set. -/
def construct (hasGlobalWebSocket : Bool) (p : PartialConfig) : CtorResult :=
  let cfg := mergeConfig DEFAULT_CONFIG p
  if hasGlobalWebSocket = false then
    { client := none, effects := []
      thrown := some "mocha-remote-client expects a global WebSocket" }
  else
    let s0 : ClientState :=
      { config := cfg, ws := none, instrumentedMocha := none
        retryTimeout := none, nextTimerId := 0, nextMochaId := 0 }
    if cfg.autoConnect then
      let c := connect s0
      { client := some c.state, effects := c.effects, thrown := c.thrown }
    else
      { client := some s0, effects := [], thrown := none }

end MochaRemoteClient

/-- Invoking the framework instance's `run` field directly (outside the
shim): the guard throws the instrumented-instance error, the genuine
entry point yields the runner handle. -/
def MochaInst.runDirect (m : MochaInst) : Option Nat × Option String :=
  match m.runEntry with
  | RunEntry.guard => (none, some instrumentedRunMessage)
  | RunEntry.original i => (some i, none)

/-- An effect is an observable notification (a configured callback
invocation). -/
def isNotification : Effect → Bool
  | Effect.notifyConnected => true
  | Effect.notifyDisconnected _ _ => true
  | Effect.notifyInstrumented _ => true
  | Effect.notifyRunning _ => true
  | _ => false

/-- The observable notifications of an effect trace. -/
def notifications (effs : List Effect) : List Effect :=
  effs.filter isNotification

def isScheduleRetry : Effect → Bool
  | Effect.scheduleRetry _ _ => true
  | _ => false

def isNotifyDisconnected : Effect → Bool
  | Effect.notifyDisconnected _ _ => true
  | _ => false

def isInvokeRun : Effect → Bool
  | Effect.invokeRun _ => true
  | _ => false

def isOpenWebSocket : Effect → Bool
  | Effect.openWebSocket _ _ => true
  | _ => false

/-- The client holds an open connection (`ws` exists and its ready state
is `OPEN`). -/
def connOpen (s : ClientState) : Bool :=
  match s.ws with
  | some c => c.readyState = ReadyState.OPEN
  | none => false

/-- The client holds no pending (active) retry timer. -/
def noActiveTimer (s : ClientState) : Bool :=
  match s.retryTimeout with
  | some t => !t.active
  | none => true

/-- A value is an `Error` instance. -/
def isErrorValue : JSValue → Bool
  | JSValue.errorVal _ => true
  | _ => false

/-- A constructor outcome initiated a connection. -/
def initiatedConnection (r : CtorResult) : Bool :=
  r.effects.any isOpenWebSocket

/-! Concrete states used to instantiate the theorems below. -/

/-- A client with the default configuration, no WebSocket, no stored
instrumented instance and no retry timer. -/
def idleState : ClientState :=
  { config := MochaRemoteClient.DEFAULT_CONFIG
    ws := none
    instrumentedMocha := none
    retryTimeout := none
    nextTimerId := 0
    nextMochaId := 0 }

/-- An open WebSocket with all three persistent listeners attached. -/
def openConn : WebSocketConn :=
  { readyState := ReadyState.OPEN
    hasCloseListener := true
    hasErrorListener := true
    hasMessageListener := true }

/-- A client holding an open connection. -/
def openState : ClientState := { idleState with ws := some openConn }

/-- A client holding a WebSocket that is still connecting (not open). -/
def connectingState : ClientState :=
  { idleState with
      ws := some { openConn with readyState := ReadyState.CONNECTING } }

/-- An already instrumented framework instance whose `originalRun` holds
the genuine entry point. -/
def storedMocha : MochaInst :=
  { id := 0
    runEntry := RunEntry.guard
    originalRun := some (RunEntry.original 0)
    reporterPatched := true
    installedReporter := none }

/-- A client holding a stored instrumented-but-not-yet-run instance. -/
def storedState : ClientState := { idleState with instrumentedMocha := some storedMocha }

/-- `run` never mutates the client state: every branch returns the input
state unchanged. -/
theorem run_state_eq (s : ClientState) (m : MochaInst) :
    (MochaRemoteClient.run s m).state = s := by
  rcases h : m.originalRun with _ | e
  · simp [MochaRemoteClient.run, h]
  · cases e <;> simp [MochaRemoteClient.run, h]

/-- C1: for every close event, when the close code is not 1000 and
`autoRetry` is enabled, `onClose` schedules exactly one reconnect attempt
firing after `retryDelay` milliseconds (and stores the active timer);
when the code is 1000 or `autoRetry` is disabled, it schedules none (and
leaves the stored timer untouched). -/
theorem onClose_retry_policy (s : ClientState) (code : Nat) (reason : String) :
    (MochaRemoteClient.onClose s code reason).effects.filter isScheduleRetry
      = (if code ≠ 1000 ∧ s.config.autoRetry = true
         then [Effect.scheduleRetry s.nextTimerId s.config.retryDelay] else [])
    ∧ (MochaRemoteClient.onClose s code reason).state.retryTimeout
      = (if code ≠ 1000 ∧ s.config.autoRetry = true
         then some (Timer.mk s.nextTimerId s.config.retryDelay true)
         else s.retryTimeout) := by
  by_cases h : code ≠ 1000 ∧ s.config.autoRetry = true <;>
    by_cases h2 : s.config.onDisconnected = true <;>
      simp [MochaRemoteClient.onClose, h, h2, isScheduleRetry, isNotifyDisconnected]

/-- C2: protocol misuse fails with an explicit error and leaves the
client state unchanged: `connect()` with an existing WebSocket throws
"Already connected"; `send` with no open connection throws the
cannot-send error; neither performs any effect or mutation. -/
theorem protocol_misuse_unchanged (s : ClientState) (eventName : String)
    (args : List JSValue) :
    (s.ws.isSome = true →
        MochaRemoteClient.connect s
          = { state := s, effects := [], thrown := some "Already connected" })
    ∧ (connOpen s = false →
        MochaRemoteClient.send s eventName args
          = { state := s, effects := []
              thrown := some ("Cannot send " ++ eventName ++ " WebSocket is closed") }) := by
  constructor
  · intro h
    simp [MochaRemoteClient.connect, h]
  · intro h
    rcases hw : s.ws with _ | c
    · simp [MochaRemoteClient.send, hw]
    · unfold connOpen at h
      rw [hw] at h
      simp only [decide_eq_false_iff_not] at h
      simp [MochaRemoteClient.send, hw, h]

/-- C2 witness: at a client whose WebSocket exists but is still
connecting, `connect` throws "Already connected" and `send` throws the
cannot-send error, both leaving the state unchanged. -/
theorem protocol_misuse_unchanged_witness :
    (connectingState.ws.isSome = true)
    ∧ (connOpen connectingState = false)
    ∧ (MochaRemoteClient.connect connectingState
        = { state := connectingState, effects := [], thrown := some "Already connected" })
    ∧ (MochaRemoteClient.send connectingState "pass" []
        = { state := connectingState, effects := []
            thrown := some ("Cannot send " ++ "pass" ++ " WebSocket is closed") }) :=
  ⟨rfl, rfl,
   (protocol_misuse_unchanged connectingState "pass" []).1 rfl,
   (protocol_misuse_unchanged connectingState "pass" []).2 rfl⟩

/-- C3: `disconnect` is idempotent: a second call yields the same final
state, the combined trace has the same observable notifications as one
call (none), neither call throws; one call cancels the pending retry
timer and unregisters the listeners before closing the connection, and
leaves no active timer. -/
theorem disconnect_idempotent (s : ClientState) :
    (MochaRemoteClient.disconnect (MochaRemoteClient.disconnect s).state).state
      = (MochaRemoteClient.disconnect s).state
    ∧ notifications ((MochaRemoteClient.disconnect s).effects
        ++ (MochaRemoteClient.disconnect (MochaRemoteClient.disconnect s).state).effects)
      = notifications (MochaRemoteClient.disconnect s).effects
    ∧ (MochaRemoteClient.disconnect s).thrown = none
    ∧ (MochaRemoteClient.disconnect (MochaRemoteClient.disconnect s).state).thrown = none
    ∧ (MochaRemoteClient.disconnect s).effects
      = (match s.retryTimeout with
         | some t => [Effect.clearTimeoutEff t.id]
         | none => [])
        ++ (if s.ws.isSome then [Effect.removeListeners, Effect.closeConnection] else [])
    ∧ noActiveTimer (MochaRemoteClient.disconnect s).state = true := by
  rcases s with ⟨cfg, ws, im, rt, nt, nm⟩
  cases ws <;> rcases rt with _ | ⟨tid, td, ta⟩ <;>
    simp [MochaRemoteClient.disconnect, notifications, isNotification, noActiveTimer]

/-- The own properties of an `Error` value carrying a non-enumerable
`message` and `stack` and an enumerable custom field. -/
def errorProps : List (String × String × Bool) :=
  [("message", "boom", false), ("stack", "trace", false), ("code", "E42", true)]

/-- An argument list mixing a primitive and an `Error` value. -/
def sampleArgs : List JSValue := [JSValue.prim "7", JSValue.errorVal errorProps]

/-- A client configured with an `onRunning` callback. -/
def runningCallbackState : ClientState :=
  { idleState with config := { MochaRemoteClient.DEFAULT_CONFIG with onRunning := true } }

/-- C4: the argument-preparation step re-encodes every `Error` argument
as a plain mapping containing every own property of the Error —
non-enumerable ones included — and leaves every non-Error argument
unchanged; `send` runs it once on the outbound argument list before
serializing and transmitting the envelope. -/
theorem prepareArgs_error_encoding (s : ClientState) (eventName : String)
    (args : List JSValue) (props : List (String × String × Bool))
    (k v : String) (enum : Bool) (a : JSValue) :
    MochaRemoteClient.prepareArg (JSValue.errorVal props)
      = JSValue.object (props.map fun p => (p.1, p.2.1))
    ∧ ((k, v, enum) ∈ props → (k, v) ∈ props.map fun p => (p.1, p.2.1))
    ∧ (isErrorValue a = false → MochaRemoteClient.prepareArg a = a)
    ∧ (JSValue.errorVal props ∈ args →
        JSValue.object (props.map fun p => (p.1, p.2.1))
          ∈ MochaRemoteClient.prepareArgs args)
    ∧ (connOpen s = true →
        (MochaRemoteClient.send s eventName args).effects
          = [Effect.sendData eventName (MochaRemoteClient.prepareArgs args)]) := by
  refine ⟨rfl, ?_, ?_, ?_, ?_⟩
  · intro h
    exact List.mem_map_of_mem _ h
  · intro h
    cases a <;> simp_all [isErrorValue, MochaRemoteClient.prepareArg]
  · intro h
    have hm := List.mem_map_of_mem MochaRemoteClient.prepareArg h
    simpa [MochaRemoteClient.prepareArg, MochaRemoteClient.prepareArgs] using hm
  · intro h
    rcases hw : s.ws with _ | c
    · unfold connOpen at h
      rw [hw] at h
      simp at h
    · unfold connOpen at h
      rw [hw] at h
      simp only [decide_eq_true_eq] at h
      simp [MochaRemoteClient.send, hw, h]

/-- C4 witness: on a concrete argument list holding a primitive and an
Error with non-enumerable `message` and `stack`, the preparation step
keeps the primitive, maps the Error to a plain mapping holding all three
own properties, and `send` on an open connection transmits the prepared
envelope. -/
theorem prepareArgs_error_encoding_witness :
    ((("stack", "trace", false) : String × String × Bool) ∈ errorProps)
    ∧ isErrorValue (JSValue.prim "7") = false
    ∧ JSValue.errorVal errorProps ∈ sampleArgs
    ∧ connOpen openState = true
    ∧ MochaRemoteClient.prepareArg (JSValue.errorVal errorProps)
        = JSValue.object (errorProps.map fun p => (p.1, p.2.1))
    ∧ (("stack", "trace") ∈ errorProps.map fun p => (p.1, p.2.1))
    ∧ MochaRemoteClient.prepareArg (JSValue.prim "7") = JSValue.prim "7"
    ∧ JSValue.object (errorProps.map fun p => (p.1, p.2.1))
        ∈ MochaRemoteClient.prepareArgs sampleArgs
    ∧ (MochaRemoteClient.send openState "fail" sampleArgs).effects
        = [Effect.sendData "fail" (MochaRemoteClient.prepareArgs sampleArgs)] :=
  ⟨by decide, rfl, by decide, rfl,
   (prepareArgs_error_encoding openState "fail" sampleArgs errorProps
      "stack" "trace" false (JSValue.prim "7")).1,
   (prepareArgs_error_encoding openState "fail" sampleArgs errorProps
      "stack" "trace" false (JSValue.prim "7")).2.1 (by decide),
   (prepareArgs_error_encoding openState "fail" sampleArgs errorProps
      "stack" "trace" false (JSValue.prim "7")).2.2.1 rfl,
   (prepareArgs_error_encoding openState "fail" sampleArgs errorProps
      "stack" "trace" false (JSValue.prim "7")).2.2.2.1 (by decide),
   (prepareArgs_error_encoding openState "fail" sampleArgs errorProps
      "stack" "trace" false (JSValue.prim "7")).2.2.2.2 rfl⟩

/-- C5: after `instrument` on a fresh framework instance, direct
invocation of the instance's run entry point throws the instrumented
error, while `run` through the shim succeeds: it installs the reporter,
invokes the captured pre-guard entry point exactly once, fires
`onRunning` with the runner handle, and returns that handle. -/
theorem instrument_then_run (s : ClientState) (i : Nat)
    (h : s.config.onRunning = true) :
    (let r := MochaRemoteClient.instrument s (freshMocha i)
     let rr := MochaRemoteClient.run r.state r.mocha
     MochaInst.runDirect r.mocha = (none, some instrumentedRunMessage)
     ∧ rr.thrown = none
     ∧ rr.mocha.installedReporter = some MOCHA_EVENT_NAMES
     ∧ rr.effects.filter isInvokeRun = [Effect.invokeRun (RunEntry.original i)]
     ∧ Effect.notifyRunning i ∈ rr.effects
     ∧ rr.runner = some i) := by
  simp [MochaRemoteClient.instrument, MochaRemoteClient.run, MochaInst.runDirect,
        freshMocha, isInvokeRun, h]

/-- C5 witness: at a client configured with `onRunning`, instrumenting a
fresh instance and running it through the shim behaves as stated. -/
theorem instrument_then_run_witness :
    runningCallbackState.config.onRunning = true
    ∧ (let r := MochaRemoteClient.instrument runningCallbackState (freshMocha 5)
       let rr := MochaRemoteClient.run r.state r.mocha
       MochaInst.runDirect r.mocha = (none, some instrumentedRunMessage)
       ∧ rr.thrown = none
       ∧ rr.mocha.installedReporter = some MOCHA_EVENT_NAMES
       ∧ rr.effects.filter isInvokeRun = [Effect.invokeRun (RunEntry.original 5)]
       ∧ Effect.notifyRunning 5 ∈ rr.effects
       ∧ rr.runner = some 5) :=
  ⟨rfl, instrument_then_run runningCallbackState 5 rfl⟩

/-- C6 counterexample: instrumenting the same instance a second time does
not preserve the entry point captured at the first instrumentation —
after re-instrumenting a fresh instance, `originalRun` holds the guard,
and `run` through the shim throws the instrumented error instead of
invoking the original entry point. -/
theorem instrument_twice_counterexample :
    (let r1 := MochaRemoteClient.instrument idleState (freshMocha 0)
     let r2 := MochaRemoteClient.instrument r1.state r1.mocha
     r2.mocha.originalRun = some RunEntry.guard
     ∧ (MochaRemoteClient.run r2.state r2.mocha).thrown = some instrumentedRunMessage
     ∧ (MochaRemoteClient.run r2.state r2.mocha).effects.filter isInvokeRun
         ≠ [Effect.invokeRun (RunEntry.original 0)]) :=
  ⟨rfl, rfl, by decide⟩

/-- C6 amended: re-instrumenting the same instance is allowed and
reassigns the stored current-instrumented-instance reference, but it
overwrites `originalRun` with the current (guard) run field, so a
subsequent `run` through the shim invokes the guard and throws the
instrumented error rather than the original entry point. -/
theorem instrument_twice_reassigns (s : ClientState) (i : Nat) :
    (let r1 := MochaRemoteClient.instrument s (freshMocha i)
     let r2 := MochaRemoteClient.instrument r1.state r1.mocha
     r2.state.instrumentedMocha = some r2.mocha
     ∧ r2.mocha.originalRun = some RunEntry.guard
     ∧ (MochaRemoteClient.run r2.state r2.mocha).thrown = some instrumentedRunMessage
     ∧ (MochaRemoteClient.run r2.state r2.mocha).effects.filter isInvokeRun
         = [Effect.invokeRun RunEntry.guard]) := by
  simp [MochaRemoteClient.instrument, MochaRemoteClient.run, freshMocha, isInvokeRun]

/-- C7: `getMocha` returns the stored instrumented instance when one
exists, and otherwise creates a fresh instance via the configured factory
and instruments it before returning it; and after a run-request message
is handled the stored current-instrumented-instance reference is
cleared. -/
theorem getMocha_run_request (s : ClientState) (m : MochaInst)
    (data : ParsedMessage) :
    (s.instrumentedMocha = some m →
        MochaRemoteClient.getMocha s = InstrumentResult.mk s m [])
    ∧ (s.instrumentedMocha = none →
        MochaRemoteClient.getMocha s
          = MochaRemoteClient.instrument
              { s with nextMochaId := s.nextMochaId + 1 }
              (freshMocha s.nextMochaId))
    ∧ (data.eventName = some "run" →
        (MochaRemoteClient.onMessage s data).state.instrumentedMocha = none) := by
  refine ⟨?_, ?_, ?_⟩
  · intro h
    simp [MochaRemoteClient.getMocha, h]
  · intro h
    simp [MochaRemoteClient.getMocha, h]
  · intro h
    simp [MochaRemoteClient.onMessage, h, run_state_eq]

/-- C7 witness: a client holding a stored instrumented instance returns
it unchanged; a client holding none instruments a factory-fresh instance;
and handling a run-request message leaves no stored instance. -/
theorem getMocha_run_request_witness :
    storedState.instrumentedMocha = some storedMocha
    ∧ MochaRemoteClient.getMocha storedState
        = InstrumentResult.mk storedState storedMocha []
    ∧ idleState.instrumentedMocha = none
    ∧ MochaRemoteClient.getMocha idleState
        = MochaRemoteClient.instrument
            { idleState with nextMochaId := idleState.nextMochaId + 1 }
            (freshMocha idleState.nextMochaId)
    ∧ (ParsedMessage.mk (some "run") none).eventName = some "run"
    ∧ (MochaRemoteClient.onMessage idleState
        (ParsedMessage.mk (some "run") none)).state.instrumentedMocha = none :=
  ⟨rfl,
   (getMocha_run_request storedState storedMocha (ParsedMessage.mk (some "run") none)).1 rfl,
   rfl,
   (getMocha_run_request idleState storedMocha (ParsedMessage.mk (some "run") none)).2.1 rfl,
   rfl,
   (getMocha_run_request idleState storedMocha (ParsedMessage.mk (some "run") none)).2.2 rfl⟩

/-- A connected client configured with an `onDisconnected` callback. -/
def disconnectCallbackState : ClientState :=
  { idleState with
      config := { MochaRemoteClient.DEFAULT_CONFIG with onDisconnected := true }
      ws := some openConn }

/-- The empty partial configuration. -/
def emptyPartialConfig : PartialConfig := {}

/-- A partial configuration disabling `autoConnect`. -/
def noAutoConnectConfig : PartialConfig := { autoConnect := some false }

/-- C8 counterexample: `onMessage` keys on the `eventName` field, not on
a `type` field.  A message whose `eventName` is "run" but whose `type`
field is absent dispatches a run, while the `{ type: "run" }` envelope
itself (no `eventName`) is ignored with no state change and no effect. -/
theorem onMessage_type_envelope_counterexample :
    (ParsedMessage.mk (some "run") none).type ≠ some "run"
    ∧ (MochaRemoteClient.onMessage idleState
        (ParsedMessage.mk (some "run") none)).effects.filter isInvokeRun
        = [Effect.invokeRun (RunEntry.original 0)]
    ∧ (ParsedMessage.mk none (some "run")).type = some "run"
    ∧ MochaRemoteClient.onMessage idleState (ParsedMessage.mk none (some "run"))
        = Outcome.mk idleState [] none :=
  ⟨by decide, rfl, rfl, rfl⟩

/-- C8 amended: the endpoint dispatches a run if and only if the decoded
message's `eventName` field equals "run" (the wire check is on
`eventName`, not on a `type` field); every other message is ignored with
no state change, no effect and no error.  When the client stores no
instrumented instance, the dispatch invokes the factory-fresh instance's
original entry point exactly once and clears the stored reference. -/
theorem onMessage_dispatch (s : ClientState) (data : ParsedMessage) :
    (data.eventName ≠ some "run" →
        MochaRemoteClient.onMessage s data = Outcome.mk s [] none)
    ∧ (data.eventName = some "run" → s.instrumentedMocha = none →
        (MochaRemoteClient.onMessage s data).effects.filter isInvokeRun
            = [Effect.invokeRun (RunEntry.original s.nextMochaId)]
        ∧ (MochaRemoteClient.onMessage s data).state.instrumentedMocha = none) := by
  constructor
  · intro h
    simp [MochaRemoteClient.onMessage, h]
  · intro h hm
    by_cases h1 : s.config.onInstrumented = true <;>
      by_cases h2 : s.config.onRunning = true <;>
        simp [MochaRemoteClient.onMessage, MochaRemoteClient.getMocha,
              MochaRemoteClient.instrument, MochaRemoteClient.run,
              freshMocha, isInvokeRun, h, hm, h1, h2]

/-- C8 amended witness: a non-run message is ignored, and a run-request
message at a client with no stored instance dispatches exactly one
invocation of the fresh instance's original entry point and leaves no
stored instance. -/
theorem onMessage_dispatch_witness :
    (ParsedMessage.mk (some "start") none).eventName ≠ some "run"
    ∧ MochaRemoteClient.onMessage openState (ParsedMessage.mk (some "start") none)
        = Outcome.mk openState [] none
    ∧ (ParsedMessage.mk (some "run") none).eventName = some "run"
    ∧ openState.instrumentedMocha = none
    ∧ ((MochaRemoteClient.onMessage openState
          (ParsedMessage.mk (some "run") none)).effects.filter isInvokeRun
        = [Effect.invokeRun (RunEntry.original openState.nextMochaId)]
       ∧ (MochaRemoteClient.onMessage openState
            (ParsedMessage.mk (some "run") none)).state.instrumentedMocha = none) :=
  ⟨by decide,
   (onMessage_dispatch openState (ParsedMessage.mk (some "start") none)).1 (by decide),
   rfl, rfl,
   (onMessage_dispatch openState (ParsedMessage.mk (some "run") none)).2 rfl rfl⟩

/-- C9: construction throws when no global WebSocket implementation
exists; otherwise, when the effective (merged) configuration has
`autoConnect` set — the default — construction immediately initiates a
connection, and when `autoConnect` is false it initiates none. -/
theorem construct_autoconnect (p : PartialConfig) :
    MochaRemoteClient.construct false p
      = CtorResult.mk none [] (some "mocha-remote-client expects a global WebSocket")
    ∧ MochaRemoteClient.DEFAULT_CONFIG.autoConnect = true
    ∧ (p.autoConnect = none →
        (mergeConfig MochaRemoteClient.DEFAULT_CONFIG p).autoConnect = true)
    ∧ ((mergeConfig MochaRemoteClient.DEFAULT_CONFIG p).autoConnect = true →
        initiatedConnection (MochaRemoteClient.construct true p) = true
        ∧ (MochaRemoteClient.construct true p).thrown = none)
    ∧ ((mergeConfig MochaRemoteClient.DEFAULT_CONFIG p).autoConnect = false →
        initiatedConnection (MochaRemoteClient.construct true p) = false
        ∧ (MochaRemoteClient.construct true p).effects = []
        ∧ (MochaRemoteClient.construct true p).thrown = none) := by
    refine ⟨rfl, rfl, ?_, ?_, ?_⟩
    · intro h
      simp [mergeConfig, h, MochaRemoteClient.DEFAULT_CONFIG]
    · intro h
      simp [MochaRemoteClient.construct, MochaRemoteClient.connect, h,
            initiatedConnection, isOpenWebSocket]
    · intro h
      simp [MochaRemoteClient.construct, h, initiatedConnection]

/-- C9 witness: with the empty partial configuration the merged
`autoConnect` defaults to true and construction connects; with
`autoConnect` overridden to false construction performs nothing; with no
global WebSocket construction throws. -/
theorem construct_autoconnect_witness :
    emptyPartialConfig.autoConnect = none
    ∧ (mergeConfig MochaRemoteClient.DEFAULT_CONFIG emptyPartialConfig).autoConnect = true
    ∧ (initiatedConnection (MochaRemoteClient.construct true emptyPartialConfig) = true
       ∧ (MochaRemoteClient.construct true emptyPartialConfig).thrown = none)
    ∧ (mergeConfig MochaRemoteClient.DEFAULT_CONFIG noAutoConnectConfig).autoConnect = false
    ∧ (initiatedConnection (MochaRemoteClient.construct true noAutoConnectConfig) = false
       ∧ (MochaRemoteClient.construct true noAutoConnectConfig).effects = []
       ∧ (MochaRemoteClient.construct true noAutoConnectConfig).thrown = none)
    ∧ MochaRemoteClient.construct false emptyPartialConfig
        = CtorResult.mk none [] (some "mocha-remote-client expects a global WebSocket") :=
  ⟨rfl,
   (construct_autoconnect emptyPartialConfig).2.2.1 rfl,
   (construct_autoconnect emptyPartialConfig).2.2.2.1 rfl,
   rfl,
   (construct_autoconnect noAutoConnectConfig).2.2.2.2 rfl,
   (construct_autoconnect emptyPartialConfig).1⟩

/-- C10: a deliberate `disconnect` never fires `onDisconnected` and never
schedules a reconnect — its trace removes the listeners before closing
the connection — while a transport-driven close event handled by
`onClose` fires `onDisconnected` with the close code and reason (when the
callback is configured) after any reconnect scheduling, and fires nothing
when it is not configured. -/
theorem disconnect_silent_onClose_notifies (s : ClientState) (code : Nat)
    (reason : String) :
    (MochaRemoteClient.disconnect s).effects.filter isNotifyDisconnected = []
    ∧ (MochaRemoteClient.disconnect s).effects.filter isScheduleRetry = []
    ∧ (s.ws.isSome = true →
        ∃ pre, (MochaRemoteClient.disconnect s).effects
            = pre ++ [Effect.removeListeners, Effect.closeConnection])
    ∧ (s.config.onDisconnected = true →
        (MochaRemoteClient.onClose s code reason).effects
          = (if code ≠ 1000 ∧ s.config.autoRetry = true
             then [Effect.scheduleRetry s.nextTimerId s.config.retryDelay]
             else [])
            ++ [Effect.notifyDisconnected code reason])
    ∧ (s.config.onDisconnected = false →
        (MochaRemoteClient.onClose s code reason).effects.filter
            isNotifyDisconnected = []) := by
  refine ⟨?_, ?_, ?_, ?_, ?_⟩
  · rcases s with ⟨cfg, ws, im, rt, nt, nm⟩
    cases ws <;> cases rt <;>
      simp [MochaRemoteClient.disconnect, isNotifyDisconnected]
  · rcases s with ⟨cfg, ws, im, rt, nt, nm⟩
    cases ws <;> cases rt <;>
      simp [MochaRemoteClient.disconnect, isScheduleRetry]
  · intro h
    rcases hw : s.ws with _ | c
    · simp [hw] at h
    · rcases hr : s.retryTimeout with _ | t
      · exact ⟨[], by simp [MochaRemoteClient.disconnect, hw, hr]⟩
      · exact ⟨[Effect.clearTimeoutEff t.id],
          by simp [MochaRemoteClient.disconnect, hw, hr]⟩
  · intro h
    by_cases hr : code ≠ 1000 ∧ s.config.autoRetry = true <;>
      simp [MochaRemoteClient.onClose, h, hr]
  · intro h
    by_cases hr : code ≠ 1000 ∧ s.config.autoRetry = true <;>
      simp [MochaRemoteClient.onClose, h, hr, isNotifyDisconnected,
            isScheduleRetry]

/-- C10 witness: at a connected client with `onDisconnected` configured,
`disconnect` fires no notification and schedules no retry while removing
the listeners before closing; `onClose` with an abnormal code schedules
the retry and then fires `onDisconnected` with the code and reason; and
at a client without the callback, `onClose` fires nothing. -/
theorem disconnect_silent_onClose_notifies_witness :
    (MochaRemoteClient.disconnect disconnectCallbackState).effects.filter
        isNotifyDisconnected = []
    ∧ (MochaRemoteClient.disconnect disconnectCallbackState).effects.filter
        isScheduleRetry = []
    ∧ disconnectCallbackState.ws.isSome = true
    ∧ (∃ pre, (MochaRemoteClient.disconnect disconnectCallbackState).effects
        = pre ++ [Effect.removeListeners, Effect.closeConnection])
    ∧ disconnectCallbackState.config.onDisconnected = true
    ∧ (MochaRemoteClient.onClose disconnectCallbackState 1006 "lost").effects
        = (if (1006 : Nat) ≠ 1000 ∧ disconnectCallbackState.config.autoRetry = true
           then [Effect.scheduleRetry disconnectCallbackState.nextTimerId
                   disconnectCallbackState.config.retryDelay]
           else [])
          ++ [Effect.notifyDisconnected 1006 "lost"]
    ∧ idleState.config.onDisconnected = false
    ∧ (MochaRemoteClient.onClose idleState 1006 "lost").effects.filter
        isNotifyDisconnected = [] :=
  ⟨(disconnect_silent_onClose_notifies disconnectCallbackState 1006 "lost").1,
   (disconnect_silent_onClose_notifies disconnectCallbackState 1006 "lost").2.1,
   rfl,
   (disconnect_silent_onClose_notifies disconnectCallbackState 1006 "lost").2.2.1 rfl,
   rfl,
   (disconnect_silent_onClose_notifies disconnectCallbackState 1006 "lost").2.2.2.1 rfl,
   rfl,
   (disconnect_silent_onClose_notifies idleState 1006 "lost").2.2.2.2 rfl⟩

end MochaRemote
